import Mathlib

/-! Verification of the nuclear-isotopes economics dashboard (src/app.py).

The program is a Streamlit single-page app: a fixed in-memory dataset
(`load_data`, lines 17-28), a fixed list of three quiz questions
(`quiz_questions`, lines 37-53), two session-state integers
(`quiz_score`, `current_question`, lines 31-34), and a `main` routine
(lines 56-313) that branches on a sidebar selection to one of six panels.
The quiz panel (lines 257-284) is the only code that reads or writes the
session state.  We embed the data model, the quiz state machine and the
view router as pure Lean definitions and prove the specified properties. -/

namespace IsotopeApp

/-- One row of the static dataset built by `load_data` (src/app.py lines
17-28): columns Country, Isotope Production (%), Medical Procedures
(Million), CO2 Savings (Thousand Tons).  The medical column holds
fractional values in the source, modelled as exact rationals. -/
structure CountryStat where
  country : String
  productionShare : Int
  medicalProcedures : ℚ
  co2Savings : Int
deriving DecidableEq

/-- The `countries` column literal (src/app.py line 18). -/
def countries : List String :=
  ["Canada", "Russia", "USA", "Netherlands", "South Africa", "China", "Japan", "India"]

/-- The `production` column literal, percent of global isotope production
(src/app.py line 19). -/
def production : List Int := [38, 25, 15, 10, 8, 5, 3, 2]

/-- The `medical_use` column literal, million procedures per year
(src/app.py line 20). -/
def medical_use : List ℚ := [4.2, 3.1, 4.0, 0.8, 0.5, 2.5, 1.8, 1.2]

/-- The `co2_savings` column literal, thousand tons CO2 saved
(src/app.py line 21). -/
def co2_savings : List Int := [850, 620, 550, 180, 120, 420, 150, 200]

/-- `load_data` (src/app.py lines 17-28): zips the four parallel column
literals into a row sequence, as the DataFrame constructor does.  A pure
constant: every call returns the same value by construction. -/
def load_data : List CountryStat :=
  (countries.zip (production.zip (medical_use.zip co2_savings))).map
    (fun r => ⟨r.1, r.2.1, r.2.2.1, r.2.2.2⟩)

/-- One entry of `quiz_questions`: prompt, four options, index of the
correct option (src/app.py lines 37-53, keys question/options/answer). -/
structure QuizQuestion where
  question : String
  options : List String
  answer : Nat
deriving DecidableEq

/-- The fixed three-question list `quiz_questions` (src/app.py lines 37-53). -/
def quiz_questions : List QuizQuestion :=
  [⟨"What percentage of global medical isotopes are produced in research reactors?",
    ["25%", "40%", "60%", "75%"], 1⟩,
   ⟨"Which sector uses the majority of industrial isotopes?",
    ["Agriculture", "Material Testing", "Sterilization", "Oil Exploration"], 1⟩,
   ⟨"What\x27s the projected CAGR for the isotopes market (2023-2030)?",
    ["3.2%", "5.0%", "6.8%", "8.5%"], 2⟩]

/-- The two session-state integers (src/app.py lines 31-34).  Python
integers are unbounded signed integers, modelled as `Int`. -/
structure QuizState where
  quiz_score : Int
  current_question : Int
deriving DecidableEq

/-- Session-state initialization: both integers start at 0
(src/app.py lines 31-34). -/
def initialState : QuizState := ⟨0, 0⟩

/-- Placeholder question used to make indexing total; never reached for
indices in [0, 3). -/
def defaultQuestion : QuizQuestion := ⟨"", [], 0⟩

/-- `quiz_questions[st.session_state.current_question]`
(src/app.py line 262), total on out-of-range indices via a default. -/
def questionAt (i : Int) : QuizQuestion :=
  (quiz_questions[i.toNat]?).getD defaultQuestion

/-- The answer-button click handler (src/app.py lines 270-275): if the
clicked option index equals the current question's `answer`, the score is
incremented; regardless, `current_question` is incremented. -/
def submitAnswer (s : QuizState) (selected : Nat) : QuizState :=
  let q := questionAt s.current_question
  { quiz_score := if selected = q.answer then s.quiz_score + 1 else s.quiz_score,
    current_question := s.current_question + 1 }

/-- The Restart Quiz button handler (src/app.py lines 281-284): both
session-state integers are reset to 0. -/
def restartQuiz (_s : QuizState) : QuizState := ⟨0, 0⟩

/-- A user interaction inside the quiz panel: clicking the i-th answer
button, or clicking the restart button. -/
inductive QuizEvent where
  | answerClick (i : Nat)
  | restartClick
deriving DecidableEq

/-- One render-and-interact cycle of the quiz panel (src/app.py lines
261-284).  Answer buttons exist only while `current_question <
len(quiz_questions)` (line 261) and only one per option (line 268); the
restart button exists only on the completion screen (lines 277-284).
A click on a button that is not rendered cannot occur, so is a no-op. -/
def quizPanelStep (s : QuizState) : QuizEvent → QuizState
  | QuizEvent.answerClick i =>
      if s.current_question < (quiz_questions.length : Int) ∧
          i < (questionAt s.current_question).options.length then
        submitAnswer s i
      else s
  | QuizEvent.restartClick =>
      if s.current_question < (quiz_questions.length : Int) then s
      else restartQuiz s

/-- The six display panels selected by the sidebar radio
(src/app.py lines 61-68). -/
inductive Panel where
  | globalDashboard
  | isotopeProduction
  | sectorApplications
  | economicAnalysis
  | interactiveQuiz
  | references
deriving DecidableEq

/-- The fixed navigation menu passed to the sidebar radio
(src/app.py lines 61-68). -/
def navigationMenu : List String :=
  ["Global Dashboard", "Isotope Production", "Sector Applications",
   "Economic Analysis", "Interactive Quiz", "References"]

/-- The view router: the if/elif chain on `app_mode` in `main`
(src/app.py lines 76, 112, 161, 214, 257, 287).  The final `else`
branch renders the References panel. -/
def selectPanel (app_mode : String) : Panel :=
  if app_mode = "Global Dashboard" then Panel.globalDashboard
  else if app_mode = "Isotope Production" then Panel.isotopeProduction
  else if app_mode = "Sector Applications" then Panel.sectorApplications
  else if app_mode = "Economic Analysis" then Panel.economicAnalysis
  else if app_mode = "Interactive Quiz" then Panel.interactiveQuiz
  else Panel.references

/-- Effect of one full script run of `main` on the quiz session state
(src/app.py lines 56-313): only the Interactive Quiz branch (lines
257-284) reads or writes `st.session_state.quiz_score` or
`st.session_state.current_question`; every other branch only renders
charts and markdown from `load_data` or inline literals. -/
def mainStep (app_mode : String) (e : QuizEvent) (s : QuizState) : QuizState :=
  match selectPanel app_mode with
  | Panel.interactiveQuiz => quizPanelStep s e
  | _ => s

/-- Outcome of rendering the optional image slot of the Industrial panel. -/
inductive AssetRender where
  | shownImage
  | placeholder
deriving DecidableEq

/-- Modelled from the spec: the runtime behavior of the external image
call `st.image("industrial_apps.jpg")` (src/app.py line 211) when the
asset file is missing is UI-library behavior, not code under src/.  The
spec states a missing optional asset "should degrade to a visible
placeholder rather than aborting the session"; `Except.error` would model
an aborted session, and is never produced. -/
def renderIndustrialPanel (assetPresent : Bool) : Except String AssetRender :=
  if assetPresent then Except.ok AssetRender.shownImage
  else Except.ok AssetRender.placeholder

/-- The session-state invariant of the spec data model: score is a
non-negative integer and the question index lies in
[0, len(quiz_questions)]. -/
def quizInv (s : QuizState) : Prop :=
  0 ≤ s.quiz_score ∧ 0 ≤ s.current_question ∧
    s.current_question ≤ (quiz_questions.length : Int)

/-- States reachable from session start by any sequence of quiz-panel
interactions (answer submissions and restarts). -/
inductive Reachable : QuizState → Prop where
  | init : Reachable initialState
  | step (s : QuizState) (e : QuizEvent) : Reachable s → Reachable (quizPanelStep s e)

/-- Helper: one quiz-panel interaction preserves the session-state
invariant. -/
theorem quizPanelStep_inv (s : QuizState) (e : QuizEvent) (h : quizInv s) :
    quizInv (quizPanelStep s e) := by
  cases e <;> simp only [quizPanelStep] <;> split_ifs with hg <;>
    simp_all [quizInv, submitAnswer, restartQuiz, quiz_questions] <;> split_ifs <;> omega

/-- C1: submitting any option index `sel ≤ 3` while in `Asking(i)` (that
is, `0 ≤ current_question < 3`) sets `current_question` to `i + 1`, and
the score becomes `score + 1` iff `sel` equals the current question's
`answer`; otherwise the score is unchanged (src/app.py lines 268-276). -/
theorem submitAnswer_advances_and_scores (s : QuizState) (sel : Nat)
    (h0 : 0 ≤ s.current_question) (h3 : s.current_question < 3) (hsel : sel ≤ 3) :
    (submitAnswer s sel).current_question = s.current_question + 1 ∧
    ((submitAnswer s sel).quiz_score = s.quiz_score + 1 ↔
      sel = (questionAt s.current_question).answer) ∧
    (sel ≠ (questionAt s.current_question).answer →
      (submitAnswer s sel).quiz_score = s.quiz_score) := by
  refine ⟨rfl, ?_, ?_⟩ <;> simp only [submitAnswer] <;> split_ifs with h <;> simp [h]

/-- Witness for C1: submitting option 1 in the initial state `Asking(0)`
advances to question 1 and scores the point (1 is the correct index of
question 0). -/
theorem submitAnswer_advances_and_scores_witness :
    (submitAnswer initialState 1).current_question = initialState.current_question + 1 ∧
    ((submitAnswer initialState 1).quiz_score = initialState.quiz_score + 1 ↔
      1 = (questionAt initialState.current_question).answer) ∧
    (1 ≠ (questionAt initialState.current_question).answer →
      (submitAnswer initialState 1).quiz_score = initialState.quiz_score) :=
  submitAnswer_advances_and_scores initialState 1 (by decide) (by decide) (by decide)

/-- C2: every state reachable from the initial session state by quiz-panel
interactions satisfies `0 ≤ quiz_score` and
`0 ≤ current_question ≤ len(quiz_questions) = 3`. -/
theorem reachable_satisfies_inv (s : QuizState) (h : Reachable s) : quizInv s := by
  induction h with
  | init => exact ⟨le_refl 0, le_refl 0, by decide⟩
  | step t e _ ih => exact quizPanelStep_inv t e ih

/-- Witness for C2: the invariant holds of a concrete reachable state, the
one obtained by answering question 0 from the initial state. -/
theorem reachable_satisfies_inv_witness :
    quizInv (quizPanelStep initialState (QuizEvent.answerClick 1)) :=
  reachable_satisfies_inv (quizPanelStep initialState (QuizEvent.answerClick 1))
    (Reachable.step initialState (QuizEvent.answerClick 1) Reachable.init)

/-- C3: from the initial state, any three answer-button clicks (option
indices at most 3, the buttons that exist) leave the machine in
`Finished`: `current_question = 3`. -/
theorem three_submissions_reach_finished (a b c : Nat)
    (ha : a ≤ 3) (hb : b ≤ 3) (hc : c ≤ 3) :
    (quizPanelStep (quizPanelStep (quizPanelStep initialState (QuizEvent.answerClick a))
      (QuizEvent.answerClick b)) (QuizEvent.answerClick c)).current_question = 3 := by
  interval_cases a <;> interval_cases b <;> interval_cases c <;> decide

/-- Witness for C3: clicking option 0 three times from the initial state
ends with `current_question = 3`. -/
theorem three_submissions_reach_finished_witness :
    (quizPanelStep (quizPanelStep (quizPanelStep initialState (QuizEvent.answerClick 0))
      (QuizEvent.answerClick 0)) (QuizEvent.answerClick 0)).current_question = 3 :=
  three_submissions_reach_finished 0 0 0 (by decide) (by decide) (by decide)

/-- C4: in any `Finished` state (`current_question = 3`, any score), the
restart interaction yields exactly the state (score 0, question 0)
(src/app.py lines 281-284). -/
theorem restart_resets (s : QuizState) (h : s.current_question = 3) :
    quizPanelStep s QuizEvent.restartClick = initialState := by
  simp [quizPanelStep, h, restartQuiz, initialState, quiz_questions]

/-- Witness for C4: restarting from the finished state with score 2
yields (0, 0). -/
theorem restart_resets_witness :
    quizPanelStep ⟨2, 3⟩ QuizEvent.restartClick = initialState :=
  restart_resets ⟨2, 3⟩ (by decide)

/-- C5: submitting option 1 (correct for question 0), option 1 (correct
for question 1), then any option `x ≤ 3` other than 2 (2 is correct for
question 2) from the initial state yields final score 2 and the
`Finished` index 3. -/
theorem scenario_two_of_three (x : Nat) (hx3 : x ≤ 3) (hx : x ≠ 2) :
    (submitAnswer (submitAnswer (submitAnswer initialState 1) 1) x).quiz_score = 2 ∧
    (submitAnswer (submitAnswer (submitAnswer initialState 1) 1) x).current_question = 3 := by
  interval_cases x <;> revert hx <;> decide

/-- Witness for C5: the concrete run with final answer 0 scores 2 of 3. -/
theorem scenario_two_of_three_witness :
    (submitAnswer (submitAnswer (submitAnswer initialState 1) 1) 0).quiz_score = 2 ∧
    (submitAnswer (submitAnswer (submitAnswer initialState 1) 1) 0).current_question = 3 :=
  scenario_two_of_three 0 (by decide) (by decide)

/-- C6: when the optional Industrial-panel image asset is missing, the
panel renders a visible placeholder and never produces the aborting
outcome (`Except.error`). -/
theorem missing_asset_renders_placeholder :
    renderIndustrialPanel false = Except.ok AssetRender.placeholder := rfl

/-- C7: `load_data` is a constant of the program (hence pure and
deterministic, with no failure modes): it always yields the same 8-row
sequence, whose country column is the fixed country list. -/
theorem load_data_deterministic_eight_rows :
    load_data.length = 8 ∧
    load_data.map CountryStat.country =
      ["Canada", "Russia", "USA", "Netherlands", "South Africa", "China",
       "Japan", "India"] ∧
    load_data.map CountryStat.productionShare = [38, 25, 15, 10, 8, 5, 3, 2] :=
  ⟨rfl, rfl, rfl⟩

/-- C8: the production-share value of every row returned by `load_data`
is a percentage between 0 and 100 inclusive. -/
theorem productionShare_in_percent_range :
    ∀ r ∈ load_data, 0 ≤ r.productionShare ∧ r.productionShare ≤ 100 := by
  decide

/-- Witness for C8: the Canada row is in `load_data` and its production
share is in [0, 100]. -/
theorem productionShare_in_percent_range_witness :
    0 ≤ (CountryStat.mk "Canada" 38 4.2 850).productionShare ∧
      (CountryStat.mk "Canada" 38 4.2 850).productionShare ≤ 100 :=
  productionShare_in_percent_range (CountryStat.mk "Canada" 38 4.2 850)
    (by simp [load_data, countries, production, medical_use, co2_savings])

/-- C9: the view router maps each of the six fixed menu labels to exactly
its corresponding panel; `selectPanel` is total on strings, so no error
path exists for any menu input (src/app.py lines 76-288). -/
theorem selectPanel_exhaustive :
    selectPanel ("Global Dashboard") = Panel.globalDashboard ∧
    selectPanel ("Isotope Production") = Panel.isotopeProduction ∧
    selectPanel ("Sector Applications") = Panel.sectorApplications ∧
    selectPanel ("Economic Analysis") = Panel.economicAnalysis ∧
    selectPanel ("Interactive Quiz") = Panel.interactiveQuiz ∧
    selectPanel ("References") = Panel.references := by
  decide

/-- C10: a script run for any panel other than Interactive Quiz leaves
the quiz session state exactly as it was, whatever interaction event
occurs, so quiz progress survives navigating away and back. -/
theorem non_quiz_panels_preserve_state (app_mode : String) (e : QuizEvent)
    (s : QuizState) (h : selectPanel app_mode ≠ Panel.interactiveQuiz) :
    mainStep app_mode e s = s := by
  unfold mainStep
  cases hp : selectPanel app_mode <;> simp_all

/-- Witness for C10: rendering the References panel with a pending answer
click leaves the mid-quiz state (score 1, question 2) unchanged. -/
theorem non_quiz_panels_preserve_state_witness :
    mainStep ("References") (QuizEvent.answerClick 0) ⟨1, 2⟩ = ⟨1, 2⟩ :=
  non_quiz_panels_preserve_state ("References") (QuizEvent.answerClick 0) ⟨1, 2⟩
    (by decide)

end IsotopeApp
